import Mathlib

/-!
Verification development for the HWMonitor Flask app (src/app/app.py).

The program is a small HTTP service with three routes (`/`, `/healthz`,
`/metrics`) instrumented by a before/after request hook pair that records a
labeled request counter and a latency histogram into a process-wide metrics
registry.

Shallow embedding conventions:
* Timestamps and sleep durations are rationals (`ℚ`).
* `time.time()` is modelled by a clock trace: a list of readings consumed one
  per call (`readClock`).  In `_record_metrics` the Python expression
  `time.time() - getattr(app, "_start_time", time.time())` evaluates the left
  operand first and then the `getattr` default argument (Python evaluates
  call arguments eagerly), so the after-hook always consumes two readings.
* The Flask `app` object's mutable attribute `_start_time` is a single
  process-wide shared field; it is the `start_time : Option ℚ` component of
  `SysState` (absent until the first before-hook runs).
* The prometheus registry is modelled as the event log of `.inc()` and
  `.observe()` calls; aggregation (`counterValue`) counts matching events.
  The registry's own atomicity is the external collaborator's contract.
* `generate_latest` and `CONTENT_TYPE_LATEST` model the external
  `prometheus_client` collaborator: a total rendering of the whole registry
  and the exposition format's required content-type string.
-/

/-- An HTTP request context as the hooks see it: `request.method`,
`request.path` (the raw path), and `request.endpoint` (the matched endpoint
name, `None` when no route matched). -/
structure Request where
  method : String
  path : String
  endpoint : Option String
deriving DecidableEq, Repr

/-- A response body: route handlers return JSON objects via `jsonify`, the
metrics route returns plain text. JSON objects here are string-valued
dictionaries, which covers every payload the app produces. -/
inductive Body where
  | json : List (String × String) → Body
  | text : String → Body
deriving DecidableEq, Repr

/-- A Flask response: body, `status_code`, and mimetype. -/
structure HttpResponse where
  body : Body
  status_code : Nat
  mimetype : String
deriving DecidableEq, Repr

/-- One `.inc()` call on `REQUEST_COUNT` with its three label values
(`method`, `endpoint`, `http_status`). -/
structure CounterEvent where
  method : String
  endpoint : String
  http_status : Nat
deriving DecidableEq, Repr

/-- One `.observe()` call on `REQUEST_LATENCY` with its `endpoint` label and
the observed value in seconds. -/
structure HistEvent where
  endpoint : String
  value : ℚ
deriving DecidableEq, Repr

/-- The process-wide metrics registry, as the log of update events it has
received.  `counterEvents` are increments of `hwmonitor_requests_total`,
`histEvents` are observations of `hwmonitor_request_latency_seconds`. -/
structure Registry where
  counterEvents : List CounterEvent
  histEvents : List HistEvent
deriving DecidableEq, Repr

/-- The empty registry (process start, before any request). -/
def emptyReg : Registry := ⟨[], []⟩

/-- Aggregate value of the counter `hwmonitor_requests_total` for one label
combination: the number of matching increment events. -/
def counterValue (reg : Registry) (m e : String) (st : Nat) : Nat :=
  (reg.counterEvents.filter
    (fun ev => ev.method == m && ev.endpoint == e && ev.http_status == st)).length

/-- The mutable process state the hooks touch: the shared `app._start_time`
attribute (absent until first set), the metrics registry, and the remaining
clock readings `time.time()` will return. -/
structure SysState where
  start_time : Option ℚ
  reg : Registry
  clock : List ℚ
deriving DecidableEq, Repr

/-- One `time.time()` call: consume the next clock reading (0 if the trace is
exhausted, which the theorems never rely on). -/
def readClock : List ℚ → ℚ × List ℚ
  | [] => (0, [])
  | t :: rest => (t, rest)

/-- The before-hook `_start_timer`: `setattr(app, "_start_time", time.time())`.
It overwrites the single shared `_start_time` attribute of the process-wide
`app` object with the current clock reading. -/
def _start_timer (s : SysState) : SysState :=
  let p := readClock s.clock
  { s with start_time := some p.1, clock := p.2 }

/-- The endpoint-name derivation in `_record_metrics`:
`getattr(app.view_functions.get(request.endpoint, None), "__name__", "unknown")`
wrapped in `try/except` with fallback `"unknown"`.  `view_functions` maps each
registered endpoint name to its handler function's `__name__`.  No step of the
lookup can raise, so the embedding is total with the same fallbacks. -/
def deriveEndpoint (view_functions : List (String × String))
    (reqEndpoint : Option String) : String :=
  match reqEndpoint with
  | none => "unknown"
  | some e =>
    match view_functions.lookup e with
    | none => "unknown"
    | some fname => fname

/-- The elapsed-time computation in `_record_metrics`:
`time.time() - getattr(app, "_start_time", time.time())`.  The left operand is
the first clock reading; the `getattr` default is the second (Python evaluates
it eagerly whether or not the attribute exists).  If `_start_time` is present
the result is `first - start`; otherwise `first - second`. -/
def elapsedOf (start : Option ℚ) (clock : List ℚ) : ℚ :=
  let p1 := readClock clock
  let p2 := readClock p1.2
  match start with
  | some t0 => p1.1 - t0
  | none => p1.1 - p2.1

/-- The after-hook `_record_metrics`: derives an endpoint name by dispatch-table
introspection (the value is never used afterwards), increments
`REQUEST_COUNT.labels(method=request.method, endpoint=request.path,
http_status=response.status_code)`, observes the elapsed time into
`REQUEST_LATENCY.labels(endpoint=request.path)`, and returns the response
unchanged. -/
def _record_metrics (view_functions : List (String × String)) (req : Request)
    (resp : HttpResponse) (s : SysState) : HttpResponse × SysState :=
  let _endpointName := deriveEndpoint view_functions req.endpoint
  let counters := s.reg.counterEvents ++ [⟨req.method, req.path, resp.status_code⟩]
  let elapsed := elapsedOf s.start_time s.clock
  let clock2 := (readClock (readClock s.clock).2).2
  (resp,
    { start_time := s.start_time,
      reg := { counterEvents := counters,
               histEvents := s.reg.histEvents ++ [⟨req.path, elapsed⟩] },
      clock := clock2 })

/-- `flask.jsonify`: a JSON response with status 200. -/
def jsonify (obj : List (String × String)) : HttpResponse :=
  { body := Body.json obj, status_code := 200, mimetype := "application/json" }

/-- What a route handler does: the `time.sleep` calls it performs, in order,
and the response it returns. -/
structure HandlerResult where
  sleeps : List ℚ
  resp : HttpResponse
deriving DecidableEq, Repr

/-- The `/` handler `index`: sleeps for `random.uniform(0.01, 0.2)` seconds
(`u` is the value the uniform draw returned) and returns the fixed greeting
JSON. -/
def index (u : ℚ) : HandlerResult :=
  { sleeps := [u], resp := jsonify [("message", "Hello from HWMonitor Flask app!")] }

/-- The `/healthz` handler `healthz`: returns the fixed JSON immediately. -/
def healthz : HandlerResult :=
  { sleeps := [], resp := jsonify [("status", "ok")] }

/-- Model of the external `prometheus_client.CONTENT_TYPE_LATEST`: the text
exposition format's required content-type string. -/
def CONTENT_TYPE_LATEST : String := "text/plain; version=0.0.4; charset=utf-8"

/-- Model of the external `prometheus_client.generate_latest`: a total text
rendering of the entire registry (every counter increment and histogram
observation contributes). -/
def generate_latest (reg : Registry) : String :=
  String.intercalate "\n"
    ((reg.counterEvents.map (fun e =>
        "hwmonitor_requests_total " ++ e.method ++ " " ++ e.endpoint ++ " "
          ++ toString e.http_status))
      ++ (reg.histEvents.map (fun e =>
        "hwmonitor_request_latency_seconds " ++ e.endpoint ++ " "
          ++ toString e.value)))

/-- The `/metrics` handler `metrics`:
`Response(generate_latest(), mimetype=CONTENT_TYPE_LATEST)` (Flask `Response`
defaults to status 200). -/
def metrics (reg : Registry) : HandlerResult :=
  { sleeps := [],
    resp := { body := Body.text (generate_latest reg), status_code := 200,
              mimetype := CONTENT_TYPE_LATEST } }

/-- The app's dispatch table `app.view_functions`: endpoint name to handler
`__name__` for the three registered routes. -/
def view_functions0 : List (String × String) :=
  [("index", "index"), ("healthz", "healthz"), ("metrics", "metrics")]

/-- One scheduler event in an interleaved execution: some request's
before-hook runs, or some request's after-hook runs with that request's
context and its handler's response. -/
inductive Step where
  | before : Step
  | after : Request → HttpResponse → Step
deriving DecidableEq, Repr

/-- Execute one scheduler event against the shared process state. -/
def runStep (view_functions : List (String × String)) (s : SysState) :
    Step → SysState
  | Step.before => _start_timer s
  | Step.after req resp => (_record_metrics view_functions req resp s).2

/-- Execute a whole interleaved schedule. -/
def runSteps (view_functions : List (String × String)) :
    List Step → SysState → SysState
  | [], s => s
  | st :: rest, s => runSteps view_functions rest (runStep view_functions s st)

/-- Whether a scheduler event is an after-hook run, i.e. a completed request. -/
def Step.isAfter : Step → Bool
  | Step.before => false
  | Step.after _ _ => true

/-- Whether an event is compatible with a schedule of `GET /` requests that
all completed with status 200. -/
def Step.isGetRootOk : Step → Bool
  | Step.before => true
  | Step.after req resp =>
      req.method == "GET" && req.path == "/" && resp.status_code == 200

/-- A concrete `GET /` request context (matched endpoint `index`). -/
def req0 : Request := ⟨"GET", "/", some "index"⟩

/-- A concrete 200 JSON response, as `index` produces. -/
def resp0 : HttpResponse := jsonify [("message", "Hello from HWMonitor Flask app!")]

/-- A concrete request whose endpoint introspection fails (no matched
endpoint), with raw path `/x`. -/
def reqU : Request := ⟨"GET", "/x", none⟩

/-- A concrete `GET /` request context whose endpoint introspection has the
other outcome (no matched endpoint). -/
def reqN : Request := ⟨"GET", "/", none⟩

lemma record_counterEvents (vf : List (String × String)) (req : Request)
    (resp : HttpResponse) (s : SysState) :
    (_record_metrics vf req resp s).2.reg.counterEvents
      = s.reg.counterEvents ++ [⟨req.method, req.path, resp.status_code⟩] := rfl

lemma start_timer_reg (s : SysState) : (_start_timer s).reg = s.reg := rfl

lemma counterValue_record (vf : List (String × String)) (req : Request)
    (resp : HttpResponse) (s : SysState) (m e : String) (st : Nat) :
    counterValue (_record_metrics vf req resp s).2.reg m e st
      = counterValue s.reg m e st
        + (if req.method == m && req.path == e && resp.status_code == st
           then 1 else 0) := by
  rw [counterValue, counterValue, record_counterEvents, List.filter_append,
    List.length_append]
  cases hb : (req.method == m && req.path == e && resp.status_code == st) <;>
    simp [List.filter_cons, hb]

lemma counterValue_runSteps (vf : List (String × String)) (steps : List Step)
    (hall : steps.all Step.isGetRootOk = true) : ∀ s : SysState,
    counterValue (runSteps vf steps s).reg "GET" "/" 200
      = counterValue s.reg "GET" "/" 200 + (steps.filter Step.isAfter).length := by
  induction steps with
  | nil => intro s; simp [runSteps]
  | cons st rest ih =>
    intro s
    rw [List.all_cons, Bool.and_eq_true] at hall
    cases st with
    | before =>
      rw [runSteps, runStep]
      rw [ih hall.2]
      simp [Step.isAfter, List.filter_cons, start_timer_reg]
    | after req resp =>
      rw [runSteps, runStep]
      rw [ih hall.2, counterValue_record]
      have hb := hall.1
      rw [Step.isGetRootOk] at hb
      rw [hb]
      simp [Step.isAfter, List.filter_cons]
      omega

/-- C1: the claim says the before-hook stores the start timestamp in a
per-request scope, never as a single process-wide shared mutable field.  The
code instead writes `setattr(app, "_start_time", time.time())`: one shared
attribute of the process-wide `app` object.  Evaluation: request A's
before-hook (clock 0) stores `some 0`; when request B's before-hook then runs
(clock 5) the same shared field holds `some 5`, and A's timestamp `some 0` is
gone — the second write overwrote the first request's timestamp. -/
theorem start_time_shared_overwritten :
    (runSteps [] [Step.before] ⟨none, emptyReg, [0, 5]⟩).start_time = some 0
    ∧ (runSteps [] [Step.before, Step.before]
        ⟨none, emptyReg, [0, 5]⟩).start_time = some 5
    ∧ some (5 : ℚ) ≠ some (0 : ℚ) :=
  ⟨rfl, rfl, by norm_num⟩

/-- C2: the claim says request A's recorded latency reflects only A's own
duration even when B starts and finishes inside A's window.  Evaluation of
the interleaving A.before (t=0), B.before (t=5), B.after (t=6), A.after
(t=10): A's after-hook observes `10 - 5 = 5` (measured from B's start, which
overwrote A's in the shared field), not A's own duration `10 - 0 = 10`.  The
recorded histogram values are `[1, 5]`, and `5 ≠ 10`. -/
theorem latency_cross_contaminated :
    (runSteps view_functions0
       [Step.before, Step.before, Step.after req0 resp0, Step.after req0 resp0]
       ⟨none, emptyReg, [0, 5, 6, 6, 10, 10]⟩).reg.histEvents
      = [⟨"/", 1⟩, ⟨"/", 5⟩]
    ∧ ((5 : ℚ) ≠ 10 - 0) := by
  constructor
  · simp [runSteps, runStep, _record_metrics, _start_timer, elapsedOf, readClock,
      req0, resp0, view_functions0, emptyReg, jsonify]
    norm_num
  · norm_num

/-- C3 counterexample: with no start timestamp present and clock readings
5 then 6 (the clock advanced between the two `time.time()` calls of
`time.time() - getattr(app, "_start_time", time.time())`), the observed
elapsed value is `5 - 6 = -1`, not exactly `0.0`.  The `except` branch that
sets `elapsed = 0.0` is unreachable since `getattr` with a default cannot
raise.  The response is still returned. -/
theorem missing_start_not_zero :
    (_record_metrics [] req0 resp0 ⟨none, emptyReg, [5, 6]⟩).2.reg.histEvents
      = [⟨"/", -1⟩]
    ∧ ((-1 : ℚ) ≠ 0)
    ∧ (_record_metrics [] req0 resp0 ⟨none, emptyReg, [5, 6]⟩).1 = resp0 := by
  refine ⟨?_, by norm_num, rfl⟩
  simp [_record_metrics, elapsedOf, readClock, req0, emptyReg, resp0, jsonify]
  norm_num

/-- C3 amended: if the after-hook finds no start timestamp, the elapsed
value it observes is the difference of its two consecutive clock readings
(first minus second) — nonpositive whenever the clock is non-decreasing, and
exactly `0.0` only when the two readings coincide — and the request still
completes normally (the hook returns the response). -/
theorem missing_start_elapsed (vf : List (String × String)) (req : Request)
    (resp : HttpResponse) (reg : Registry) (t1 t2 : ℚ) (rest : List ℚ)
    (hmono : t1 ≤ t2) :
    (_record_metrics vf req resp ⟨none, reg, t1 :: t2 :: rest⟩).2.reg.histEvents
      = reg.histEvents ++ [⟨req.path, t1 - t2⟩]
    ∧ t1 - t2 ≤ 0
    ∧ (_record_metrics vf req resp ⟨none, reg, t1 :: t2 :: rest⟩).1 = resp :=
  ⟨rfl, by linarith, rfl⟩

/-- Witness for the C3 amended theorem at `t1 = 2`, `t2 = 3`. -/
theorem missing_start_elapsed_witness :
    ((2 : ℚ) ≤ 3)
    ∧ ((_record_metrics [] req0 resp0 ⟨none, emptyReg, [2, 3]⟩).2.reg.histEvents
        = emptyReg.histEvents ++ [⟨req0.path, 2 - 3⟩]
       ∧ (2 - 3 : ℚ) ≤ 0
       ∧ (_record_metrics [] req0 resp0 ⟨none, emptyReg, [2, 3]⟩).1 = resp0) :=
  ⟨by norm_num, missing_start_elapsed [] req0 resp0 emptyReg 2 3 [] (by norm_num)⟩

/-- C4 counterexample: a request whose endpoint introspection fails (no
matched endpoint, raw path `/x`).  The derivation does degrade to
`"unknown"`, but that value is NOT then used in the recorded metric labels:
the counter event carries the raw path `/x` (from `request.path`), and no
recorded counter or histogram label equals `"unknown"`.  The response is
still returned. -/
theorem unknown_label_unused :
    deriveEndpoint view_functions0 reqU.endpoint = "unknown"
    ∧ (_record_metrics view_functions0 reqU resp0
        ⟨none, emptyReg, [0, 1]⟩).2.reg.counterEvents = [⟨"GET", "/x", 200⟩]
    ∧ (∀ ev ∈ (_record_metrics view_functions0 reqU resp0
        ⟨none, emptyReg, [0, 1]⟩).2.reg.counterEvents, ev.endpoint ≠ "unknown")
    ∧ (∀ ev ∈ (_record_metrics view_functions0 reqU resp0
        ⟨none, emptyReg, [0, 1]⟩).2.reg.histEvents, ev.endpoint ≠ "unknown")
    ∧ (_record_metrics view_functions0 reqU resp0 ⟨none, emptyReg, [0, 1]⟩).1
        = resp0 := by
  refine ⟨rfl, rfl, ?_, ?_, rfl⟩
  · intro ev hev
    simp [_record_metrics, reqU, resp0, emptyReg, jsonify] at hev
    subst hev
    decide
  · intro ev hev
    simp [_record_metrics, reqU, resp0, emptyReg, elapsedOf, readClock, jsonify] at hev
    subst hev
    decide

/-- C4 amended: the after-hook is total (never raises): it always returns
the response unchanged; a failed endpoint derivation degrades to `"unknown"`,
but the derived name is not used in the recorded labels — the counter labels
always come from `request.method`, `request.path` and
`response.status_code`. -/
theorem after_hook_passthrough (vf : List (String × String)) (req : Request)
    (resp : HttpResponse) (s : SysState) :
    (_record_metrics vf req resp s).1 = resp
    ∧ deriveEndpoint vf none = "unknown"
    ∧ (_record_metrics vf req resp s).2.reg.counterEvents
        = s.reg.counterEvents ++ [⟨req.method, req.path, resp.status_code⟩] :=
  ⟨rfl, rfl, rfl⟩

/-- C5: for every completed request, the after-hook appends exactly one
counter increment labeled `(request.method, request.path,
response.status_code)` — the raw path, not the route pattern — and exactly
one histogram observation of the computed elapsed time labeled with that
same raw path only. -/
theorem record_metrics_labels (vf : List (String × String)) (req : Request)
    (resp : HttpResponse) (s : SysState) :
    (_record_metrics vf req resp s).2.reg.counterEvents
      = s.reg.counterEvents ++ [⟨req.method, req.path, resp.status_code⟩]
    ∧ (_record_metrics vf req resp s).2.reg.histEvents
      = s.reg.histEvents ++ [⟨req.path, elapsedOf s.start_time s.clock⟩] :=
  ⟨rfl, rfl⟩

/-- C6: every completed request (every after-hook run) appends exactly one
counter increment for its own label combination and exactly one histogram
observation for its own endpoint; consequently, over any interleaved schedule
whose completed requests are all `GET /` with status 200, the counter
`hwmonitor_requests_total(GET, /, 200)` increases by exactly the number of
completed requests — no lost or double-counted increments. -/
theorem requests_counted_exactly (vf : List (String × String)) (s : SysState)
    (steps : List Step) (hall : steps.all Step.isGetRootOk = true) :
    counterValue (runSteps vf steps s).reg "GET" "/" 200
      = counterValue s.reg "GET" "/" 200 + (steps.filter Step.isAfter).length
    ∧ ∀ (req : Request) (resp : HttpResponse) (t : SysState),
        counterValue (_record_metrics vf req resp t).2.reg
            req.method req.path resp.status_code
          = counterValue t.reg req.method req.path resp.status_code + 1
        ∧ (_record_metrics vf req resp t).2.reg.histEvents
            = t.reg.histEvents ++ [⟨req.path, elapsedOf t.start_time t.clock⟩] := by
  constructor
  · exact counterValue_runSteps vf steps hall s
  · intro req resp t
    constructor
    · rw [counterValue_record]
      simp
    · rfl

/-- Witness for C6: a schedule of two completed `GET /` requests. -/
theorem requests_counted_exactly_witness :
    ([Step.before, Step.after req0 resp0, Step.before,
        Step.after req0 resp0].all Step.isGetRootOk = true)
    ∧ (counterValue (runSteps view_functions0
          [Step.before, Step.after req0 resp0, Step.before, Step.after req0 resp0]
          ⟨none, emptyReg, [0, 1, 1, 2, 3, 3]⟩).reg "GET" "/" 200
        = counterValue (⟨none, emptyReg, [0, 1, 1, 2, 3, 3]⟩ : SysState).reg
            "GET" "/" 200
          + ([Step.before, Step.after req0 resp0, Step.before,
              Step.after req0 resp0].filter Step.isAfter).length
       ∧ ∀ (req : Request) (resp : HttpResponse) (t : SysState),
          counterValue (_record_metrics view_functions0 req resp t).2.reg
              req.method req.path resp.status_code
            = counterValue t.reg req.method req.path resp.status_code + 1
          ∧ (_record_metrics view_functions0 req resp t).2.reg.histEvents
              = t.reg.histEvents
                  ++ [⟨req.path, elapsedOf t.start_time t.clock⟩]) :=
  ⟨by decide,
   requests_counted_exactly view_functions0 ⟨none, emptyReg, [0, 1, 1, 2, 3, 3]⟩
     [Step.before, Step.after req0 resp0, Step.before, Step.after req0 resp0]
     (by decide)⟩

/-- C7: the `/healthz` handler returns status 200 with body exactly
`{"status": "ok"}`, performs no sleep, and reads no state at all (it is a
closed constant — in particular it touches no downstream resource and not
even the registry). -/
theorem healthz_ok :
    healthz.resp.status_code = 200
    ∧ healthz.resp.body = Body.json [("status", "ok")]
    ∧ healthz.sleeps = [] :=
  ⟨rfl, rfl, rfl⟩

/-- C8: for every value `u` the uniform draw `random.uniform(0.01, 0.2)` can
return (i.e. `1/100 ≤ u ≤ 1/5`), the `/` handler sleeps exactly once, for
`u` seconds (a value within the bounded range), and then returns the fixed
greeting JSON with status 200. -/
theorem index_ok (u : ℚ) (h1 : 1/100 ≤ u) (h2 : u ≤ 1/5) :
    (index u).sleeps = [u]
    ∧ 1/100 ≤ u ∧ u ≤ 1/5
    ∧ (index u).resp.body
        = Body.json [("message", "Hello from HWMonitor Flask app!")]
    ∧ (index u).resp.status_code = 200 :=
  ⟨rfl, h1, h2, rfl, rfl⟩

/-- Witness for C8 at `u = 1/10`. -/
theorem index_ok_witness :
    ((1/100 : ℚ) ≤ 1/10 ∧ (1/10 : ℚ) ≤ 1/5)
    ∧ ((index (1/10)).sleeps = [1/10]
       ∧ (1/100 : ℚ) ≤ 1/10 ∧ (1/10 : ℚ) ≤ 1/5
       ∧ (index (1/10)).resp.body
           = Body.json [("message", "Hello from HWMonitor Flask app!")]
       ∧ (index (1/10)).resp.status_code = 200) :=
  ⟨⟨by norm_num, by norm_num⟩, index_ok (1/10) (by norm_num) (by norm_num)⟩

/-- C9: for every registry state, the `/metrics` handler returns the full
registry rendered by `generate_latest` as its body, with mimetype exactly
`CONTENT_TYPE_LATEST` (the exposition format's required content-type string)
and status 200, performing no sleep. -/
theorem metrics_ok (reg : Registry) :
    (metrics reg).resp.body = Body.text (generate_latest reg)
    ∧ (metrics reg).resp.mimetype = CONTENT_TYPE_LATEST
    ∧ (metrics reg).resp.status_code = 200
    ∧ (metrics reg).sleeps = [] :=
  ⟨rfl, rfl, rfl, rfl⟩

/-- C10: the endpoint name derived by dispatch-table introspection (with its
`"unknown"` fallback) is never used in any recorded metric label or in the
response: two after-hook runs that differ only in the dispatch table and in
the request's matched-endpoint field — i.e. only in the introspection
outcome — produce identical responses and identical state updates. -/
theorem introspection_not_observable (vf1 vf2 : List (String × String))
    (req1 req2 : Request) (resp : HttpResponse) (s : SysState)
    (hm : req1.method = req2.method) (hp : req1.path = req2.path) :
    _record_metrics vf1 req1 resp s = _record_metrics vf2 req2 resp s := by
  obtain ⟨m1, p1, e1⟩ := req1
  obtain ⟨m2, p2, e2⟩ := req2
  change m1 = m2 at hm
  change p1 = p2 at hp
  subst hm
  subst hp
  rfl

/-- Witness for C10: the full dispatch table with a matched endpoint
(introspection yields `"index"`) versus an empty table with no matched
endpoint (introspection yields `"unknown"`) — same result. -/
theorem introspection_not_observable_witness :
    (req0.method = reqN.method ∧ req0.path = reqN.path)
    ∧ _record_metrics view_functions0 req0 resp0 ⟨none, emptyReg, [0, 1]⟩
        = _record_metrics [] reqN resp0 ⟨none, emptyReg, [0, 1]⟩ :=
  ⟨⟨rfl, rfl⟩,
   introspection_not_observable view_functions0 [] req0 reqN resp0
     ⟨none, emptyReg, [0, 1]⟩ rfl rfl⟩
